import Mathlib

/-!
Verification of the Marstek Venus Energy Manager core against its
natural-language specification.

Numbers are modelled as rationals (ℚ): the Python source computes with
floats, and every property checked here concerns exact arithmetic
structure (which values are summed, how absence propagates, sign and
guard conditions), not float representation error.

A battery coordinator's `data` dict is modelled as `Option BatteryData`:
`none` stands for `coordinator.data` being `None` (or an empty, hence
falsy, dict — observationally equivalent for every computation below,
since an empty dict contributes no field), `some d` for a populated dict
whose individual keys may still be absent (each field is an `Option ℚ`).
-/

/-- Python's `round` ties-to-even on an exact rational: the integer nearest
to `q`, ties resolved to the even integer. -/
def roundHalfEven (q : ℚ) : ℤ :=
  if q - ⌊q⌋ < 1/2 then ⌊q⌋
  else if 1/2 < q - ⌊q⌋ then ⌊q⌋ + 1
  else if ⌊q⌋ % 2 = 0 then ⌊q⌋ else ⌊q⌋ + 1

/-- Python's `round(q, prec)` on an exact rational. -/
def pyRound (prec : ℕ) (q : ℚ) : ℚ :=
  (roundHalfEven (q * 10 ^ prec) : ℚ) / 10 ^ prec

/-- One battery coordinator's data dict
(`coordinator.data` in the source); every key may be absent. -/
structure BatteryData where
  battery_soc : Option ℚ
  battery_power : Option ℚ
  battery_total_energy : Option ℚ
  total_daily_charging_energy : Option ℚ
  total_daily_discharging_energy : Option ℚ

/-- `coordinator.data`, possibly `None`. -/
abbrev CoordinatorData := Option BatteryData

/-- One iteration of the accumulation loops of
`MarstekVenusAggregateSensor._calculate_*` (aggregate_sensors.py):
when the coordinator's data yields a contribution, add it to the running
total and mark `has_data`. -/
def loop_step (contrib : CoordinatorData → Option ℚ) (st : ℚ × Bool)
    (c : CoordinatorData) : ℚ × Bool :=
  match contrib c with
  | some v => (st.1 + v, true)
  | none => st

/-- The `for coordinator in self.coordinators` accumulation loop shared by
the `_calculate_*` methods, starting from `total = 0, has_data = False`. -/
def loop_sum (contrib : CoordinatorData → Option ℚ)
    (coords : List CoordinatorData) : ℚ × Bool :=
  coords.foldl (loop_step contrib) (0, false)

/-- Contribution of one coordinator to `_calculate_total_charge_power`:
its `battery_power` when present and strictly positive
(aggregate_sensors.py lines 159-166). -/
def charge_contrib (c : CoordinatorData) : Option ℚ :=
  c.bind fun d => d.battery_power.bind fun p =>
    if 0 < p then some p else none

/-- Contribution of one coordinator to `_calculate_total_discharge_power`:
the absolute value of its `battery_power` when present and strictly
negative (aggregate_sensors.py lines 182-190). -/
def discharge_contrib (c : CoordinatorData) : Option ℚ :=
  c.bind fun d => d.battery_power.bind fun p =>
    if p < 0 then some |p| else none

/-- Contribution of one coordinator to `_calculate_total_energy`: its
`battery_total_energy` when present (aggregate_sensors.py lines 206-212). -/
def capacity_contrib (c : CoordinatorData) : Option ℚ :=
  c.bind fun d => d.battery_total_energy

/-- Contribution of one coordinator to `_calculate_total_stored_energy`:
`(soc / 100.0) * total_energy` when both `battery_soc` and
`battery_total_energy` are present (aggregate_sensors.py lines 224-233). -/
def stored_contrib (c : CoordinatorData) : Option ℚ :=
  c.bind fun d =>
    match d.battery_soc, d.battery_total_energy with
    | some s, some e => some (s / 100 * e)
    | _, _ => none

/-- Contribution of one coordinator to `_calculate_daily_charging_energy`:
its `total_daily_charging_energy` when present
(aggregate_sensors.py lines 245-250). -/
def daily_charge_contrib (c : CoordinatorData) : Option ℚ :=
  c.bind fun d => d.total_daily_charging_energy

/-- Contribution of one coordinator to `_calculate_daily_discharging_energy`:
its `total_daily_discharging_energy` when present
(aggregate_sensors.py lines 262-267). -/
def daily_discharge_contrib (c : CoordinatorData) : Option ℚ :=
  c.bind fun d => d.total_daily_discharging_energy

/-- Contribution of one coordinator to `_calculate_average_soc`: its
`battery_soc` when present (aggregate_sensors.py lines 139-143). -/
def soc_contrib (c : CoordinatorData) : Option ℚ :=
  c.bind fun d => d.battery_soc

/-- `MarstekVenusAggregateSensor._calculate_average_soc`
(aggregate_sensors.py lines 136-149): collect present SOC values; `None`
when the list is empty, else the mean rounded to the definition's
precision. -/
def calculate_average_soc (prec : ℕ) (coords : List CoordinatorData) :
    Option ℚ :=
  let soc_values := coords.filterMap soc_contrib
  if soc_values.isEmpty then none
  else some (pyRound prec (soc_values.sum / (soc_values.length : ℚ)))

/-- `MarstekVenusAggregateSensor._calculate_total_charge_power`
(aggregate_sensors.py lines 151-171): sum strictly positive `battery_power`
values; `0` (not `None`) when no battery contributed. -/
def calculate_total_charge_power (prec : ℕ) (coords : List CoordinatorData) :
    Option ℚ :=
  let st := loop_sum charge_contrib coords
  if st.2 then some (pyRound prec st.1) else some 0

/-- `MarstekVenusAggregateSensor._calculate_total_discharge_power`
(aggregate_sensors.py lines 173-199): sum absolute values of strictly
negative `battery_power` values; `0` (not `None`) when no battery
contributed. -/
def calculate_total_discharge_power (prec : ℕ)
    (coords : List CoordinatorData) : Option ℚ :=
  let st := loop_sum discharge_contrib coords
  if st.2 then some (pyRound prec st.1) else some 0

/-- `MarstekVenusAggregateSensor._calculate_total_energy`
(aggregate_sensors.py lines 201-217): sum present `battery_total_energy`
values; `None` when no battery contributed. -/
def calculate_total_energy (prec : ℕ) (coords : List CoordinatorData) :
    Option ℚ :=
  let st := loop_sum capacity_contrib coords
  if st.2 then some (pyRound prec st.1) else none

/-- `MarstekVenusAggregateSensor._calculate_total_stored_energy`
(aggregate_sensors.py lines 219-238): sum `(soc / 100.0) * total_energy`
over batteries reporting both fields; `None` when no battery contributed. -/
def calculate_total_stored_energy (prec : ℕ)
    (coords : List CoordinatorData) : Option ℚ :=
  let st := loop_sum stored_contrib coords
  if st.2 then some (pyRound prec st.1) else none

/-- `MarstekVenusAggregateSensor._calculate_daily_charging_energy`
(aggregate_sensors.py lines 240-255). -/
def calculate_daily_charging_energy (prec : ℕ)
    (coords : List CoordinatorData) : Option ℚ :=
  let st := loop_sum daily_charge_contrib coords
  if st.2 then some (pyRound prec st.1) else none

/-- `MarstekVenusAggregateSensor._calculate_daily_discharging_energy`
(aggregate_sensors.py lines 257-272). -/
def calculate_daily_discharging_energy (prec : ℕ)
    (coords : List CoordinatorData) : Option ℚ :=
  let st := loop_sum daily_discharge_contrib coords
  if st.2 then some (pyRound prec st.1) else none

/-- `MarstekVenusAggregateSensor.native_value`
(aggregate_sensors.py lines 114-134), as a state-passing computation over
the coordinator list: the method dispatches on the definition's key,
reading the coordinators and writing nothing (the returned state is the
input state — the method body assigns no field). The precision passed to
each branch is that key's entry in `AGGREGATE_SENSOR_DEFINITIONS`. -/
def native_value (key : String) (coords : List CoordinatorData) :
    Option ℚ × List CoordinatorData :=
  ( if key = "system_soc" then calculate_average_soc 0 coords
    else if key = "system_charge_power" then
      calculate_total_charge_power 0 coords
    else if key = "system_discharge_power" then
      calculate_total_discharge_power 0 coords
    else if key = "system_total_energy" then calculate_total_energy 2 coords
    else if key = "system_stored_energy" then
      calculate_total_stored_energy 3 coords
    else if key = "system_daily_charging_energy" then
      calculate_daily_charging_energy 2 coords
    else if key = "system_daily_discharging_energy" then
      calculate_daily_discharging_energy 2 coords
    else none,
    coords )

/-- `MarstekVenusAggregateSensor.available`
(aggregate_sensors.py lines 284-288): at least one coordinator's data is
not `None`. -/
def available (coords : List CoordinatorData) : Bool :=
  coords.any fun c => c.isSome

/-- The SystemAggregateState view: every aggregate value the sensor class
can produce, at the precisions fixed by `AGGREGATE_SENSOR_DEFINITIONS`. -/
structure SystemAggregateState where
  average_soc : Option ℚ
  total_charge_power : Option ℚ
  total_discharge_power : Option ℚ
  total_energy_capacity : Option ℚ
  total_stored_energy : Option ℚ
  total_daily_charge_energy : Option ℚ
  total_daily_discharge_energy : Option ℚ

/-- All aggregate values recomputed from the current snapshot set. -/
def aggregate (coords : List CoordinatorData) : SystemAggregateState where
  average_soc := calculate_average_soc 0 coords
  total_charge_power := calculate_total_charge_power 0 coords
  total_discharge_power := calculate_total_discharge_power 0 coords
  total_energy_capacity := calculate_total_energy 2 coords
  total_stored_energy := calculate_total_stored_energy 3 coords
  total_daily_charge_energy := calculate_daily_charging_energy 2 coords
  total_daily_discharge_energy := calculate_daily_discharging_energy 2 coords

/-- Inputs to one evaluation tick of the PredictiveChargeController
(spec section 4.4): aggregate quantities, consumption history output,
solar forecast, configured minimum reserve policy, charging window
membership, and the optional manual override with its forced value
(`none` = no override, `some v` = overridden and forced to `v`). -/
structure ControllerInputs where
  total_stored_energy : Option ℚ
  total_energy_capacity : Option ℚ
  avg_consumption : Option ℚ
  solar_forecast : Option ℚ
  effective_min_soc : ℚ
  in_charging_slot : Bool
  override_forced : Option Bool

/-- The DecisionRecord: every intermediate quantity of one evaluation
tick plus the human-readable reason (spec sections 3 and 6). -/
structure DecisionRecord where
  stored_energy_kwh : Option ℚ
  usable_energy_kwh : Option ℚ
  min_reserve_kwh : Option ℚ
  cutoff_energy_kwh : Option ℚ
  effective_min_soc : ℚ
  avg_consumption_kwh : Option ℚ
  total_available_kwh : Option ℚ
  energy_deficit_kwh : Option ℚ
  solar_forecast_kwh : ℚ
  reason : String

/-- The controller's verdict for one tick (spec section 3). -/
structure GridChargeDecision where
  grid_charging_active : Bool
  in_charging_slot : Bool
  overridden : Bool
  record : DecisionRecord

/-- Modelled from the spec: the PredictiveChargeController evaluation tick
(spec section 4.4 steps 1-8); the controller's own module is not among the
given source files (binary_sensor.py only reads its fields). With average
consumption, total capacity and total stored energy all known, the
quantities of steps 2-5 are computed and step 6 decides; a missing
prerequisite takes the step-7 fallback, reported as reason
"insufficient data". The override's forced value replaces the computed
decision verbatim (step 6); the record always holds the unforced computed
quantities. -/
def evaluate_predictive_charging (i : ControllerInputs) : GridChargeDecision :=
  match i.avg_consumption, i.total_energy_capacity, i.total_stored_energy with
  | some avg, some cap, some stored =>
    let min_reserve := i.effective_min_soc / 100 * cap
    let usable := max 0 (stored - min_reserve)
    let solar := i.solar_forecast.getD 0
    let total_available := usable + solar
    let deficit := max 0 (avg - total_available)
    let cutoff := min_reserve + deficit
    let computed := i.in_charging_slot && decide (stored < cutoff)
      && decide (0 < deficit)
    let reason :=
      if computed then "deficit projected, in slot, stored energy below cutoff"
      else if !i.in_charging_slot then "outside charging window"
      else "sufficient stored energy"
    { grid_charging_active := i.override_forced.getD computed
      in_charging_slot := i.in_charging_slot
      overridden := i.override_forced.isSome
      record :=
        { stored_energy_kwh := some stored
          usable_energy_kwh := some usable
          min_reserve_kwh := some min_reserve
          cutoff_energy_kwh := some cutoff
          effective_min_soc := i.effective_min_soc
          avg_consumption_kwh := some avg
          total_available_kwh := some total_available
          energy_deficit_kwh := some deficit
          solar_forecast_kwh := solar
          reason := reason } }
  | _, _, _ =>
    { grid_charging_active := i.override_forced.getD false
      in_charging_slot := i.in_charging_slot
      overridden := i.override_forced.isSome
      record :=
        { stored_energy_kwh := i.total_stored_energy
          usable_energy_kwh := none
          min_reserve_kwh := none
          cutoff_energy_kwh := none
          effective_min_soc := i.effective_min_soc
          avg_consumption_kwh := i.avg_consumption
          total_available_kwh := none
          energy_deficit_kwh := none
          solar_forecast_kwh := i.solar_forecast.getD 0
          reason := "insufficient data" } }

/-- The spec's step-2 quantity `min_reserve_kwh = effective_min_soc/100 *
total_energy_capacity`, stated in the spec's words over known inputs. -/
def min_reserve_kwh (i : ControllerInputs) : ℚ :=
  i.effective_min_soc / 100 * i.total_energy_capacity.getD 0

/-- The spec's step-2 quantity `usable_energy_kwh`, clamped at zero. -/
def usable_energy_kwh (i : ControllerInputs) : ℚ :=
  max 0 (i.total_stored_energy.getD 0 - min_reserve_kwh i)

/-- The spec's step-3 quantity `total_available_kwh`
(missing forecast treated as 0). -/
def total_available_kwh (i : ControllerInputs) : ℚ :=
  usable_energy_kwh i + i.solar_forecast.getD 0

/-- The spec's step-4 quantity `energy_deficit_kwh`, clamped at zero. -/
def energy_deficit_kwh (i : ControllerInputs) : ℚ :=
  max 0 (i.avg_consumption.getD 0 - total_available_kwh i)

/-- The spec's step-5 quantity `cutoff_energy_kwh`: the minimum reserve
adjusted upward by the projected deficit. -/
def cutoff_energy_kwh (i : ControllerInputs) : ℚ :=
  min_reserve_kwh i + energy_deficit_kwh i

/-- The unforced computed decision, in the words of spec step 6:
`in_charging_slot AND total_stored_energy < cutoff_energy_kwh AND
energy_deficit_kwh > 0`, with the step-7 fallback to inactive when a
prerequisite is missing. -/
def unforced_decision (i : ControllerInputs) : Bool :=
  match i.avg_consumption, i.total_energy_capacity, i.total_stored_energy with
  | some _, some _, some stored =>
    i.in_charging_slot && decide (stored < cutoff_energy_kwh i)
      && decide (0 < energy_deficit_kwh i)
  | _, _, _ => false

/-- Modelled from the spec: the coordinator's hysteresis flag on cold
start (`INACTIVE`, spec section 4.2); the coordinator module that
initializes `_hysteresis_active` is not among the given source files. -/
def cold_start_hysteresis_active : Bool := false

/-- `ChargeHysteresisActiveSensor.async_added_to_hass`
(binary_sensor.py lines 98-119): with no previous state the current flag
is left unchanged; otherwise the coordinator's flag becomes whether the
persisted state reads "on". -/
def restore_hysteresis (current : Bool) (last_state : Option String) : Bool :=
  match last_state with
  | none => current
  | some s => s == "on"

/-- `MarstekVenusStoredEnergySensor.native_value`
(calculated_sensors.py lines 97-113): `None` when the coordinator has no
data; absent SOC or capacity default to 0 via `.get(key, 0)`; `None` when
the capacity is not strictly positive, else `round((soc/100)*capacity, 3)`. -/
def stored_energy_native_value (data : Option BatteryData) : Option ℚ :=
  match data with
  | none => none
  | some d =>
    let soc := d.battery_soc.getD 0
    let capacity := d.battery_total_energy.getD 0
    if capacity ≤ 0 then none
    else some (pyRound 3 (soc / 100 * capacity))

/-- `MarstekVenusEfficiencySensor.native_value`
(calculated_sensors.py lines 49-65): `None` when the coordinator has no
data; absent energies default to 0 via `.get(key, 0)`; `None` when the
charging energy is not strictly positive, else
`round((discharge_energy / charge_energy) * 100, 2)`. -/
def efficiency_native_value (data : Option BatteryData) : Option ℚ :=
  match data with
  | none => none
  | some d =>
    let charge_energy := d.total_daily_charging_energy.getD 0
    let discharge_energy := d.total_daily_discharging_energy.getD 0
    if charge_energy ≤ 0 then none
    else some (pyRound 2 (discharge_energy / charge_energy * 100))

/-- Claim-side view for C2: the strictly positive `battery_power`
readings, in coordinator order. -/
def positive_powers (coords : List CoordinatorData) : List ℚ :=
  ((coords.filterMap fun c => c.bind fun d => d.battery_power).filter
    fun p => decide (0 < p))

/-- Claim-side view for C2: the strictly negative `battery_power`
readings, in coordinator order. -/
def negative_powers (coords : List CoordinatorData) : List ℚ :=
  ((coords.filterMap fun c => c.bind fun d => d.battery_power).filter
    fun p => decide (p < 0))

/-- Claim-side predicate for C3: the battery reports both `battery_soc`
and `battery_total_energy`. -/
def reports_both (c : CoordinatorData) : Bool :=
  (c.bind fun d => d.battery_soc).isSome
    && (c.bind fun d => d.battery_total_energy).isSome

/-- Claim-side view for C3: `(soc/100) * total_energy` over exactly the
batteries reporting both fields, in coordinator order. -/
def stored_contributions (coords : List CoordinatorData) : List ℚ :=
  (coords.filter reports_both).map fun c =>
    (c.bind fun d => d.battery_soc).getD 0 / 100
      * (c.bind fun d => d.battery_total_energy).getD 0

/-- Claim-side view for C4: the present `battery_soc` readings, in
coordinator order. -/
def soc_values (coords : List CoordinatorData) : List ℚ :=
  coords.filterMap soc_contrib

lemma roundHalfEven_nonneg {q : ℚ} (h : 0 ≤ q) : 0 ≤ roundHalfEven q := by
  have hf : (0 : ℤ) ≤ ⌊q⌋ := Int.floor_nonneg.mpr h
  unfold roundHalfEven
  split_ifs <;> omega

lemma pyRound_nonneg (prec : ℕ) {q : ℚ} (h : 0 ≤ q) : 0 ≤ pyRound prec q := by
  unfold pyRound
  apply div_nonneg
  · exact_mod_cast roundHalfEven_nonneg (by positivity)
  · positivity

lemma pyRound_zero (prec : ℕ) : pyRound prec 0 = 0 := by
  unfold pyRound roundHalfEven
  norm_num

lemma loop_sum_aux (contrib : CoordinatorData → Option ℚ) :
    ∀ (coords : List CoordinatorData) (st : ℚ × Bool),
      coords.foldl (loop_step contrib) st
        = (st.1 + (coords.filterMap contrib).sum,
            st.2 || !(coords.filterMap contrib).isEmpty) := by
  intro coords
  induction coords with
  | nil => intro st; simp [loop_step]
  | cons c cs ih =>
    intro st
    cases h : contrib c with
    | none => simp [loop_step, h, List.filterMap_cons, ih]
    | some v => simp [loop_step, h, List.filterMap_cons, ih, add_assoc]

lemma loop_sum_eq (contrib : CoordinatorData → Option ℚ)
    (coords : List CoordinatorData) :
    loop_sum contrib coords
      = ((coords.filterMap contrib).sum,
          !(coords.filterMap contrib).isEmpty) := by
  simp [loop_sum, loop_sum_aux]

lemma filterMap_charge_contrib (coords : List CoordinatorData) :
    coords.filterMap charge_contrib = positive_powers coords := by
  induction coords with
  | nil => rfl
  | cons c cs ih =>
    simp only [positive_powers] at ih ⊢
    rcases c with _ | d
    · simpa [List.filterMap_cons, charge_contrib] using ih
    · rcases hp : d.battery_power with _ | p
      · simpa [List.filterMap_cons, charge_contrib, hp] using ih
      · by_cases h0 : 0 < p <;>
          simp [List.filterMap_cons, List.filter_cons, charge_contrib, hp,
            h0, ih]

lemma filterMap_discharge_contrib (coords : List CoordinatorData) :
    coords.filterMap discharge_contrib
      = (negative_powers coords).map fun p => |p| := by
  induction coords with
  | nil => rfl
  | cons c cs ih =>
    simp only [negative_powers] at ih ⊢
    rcases c with _ | d
    · simpa [List.filterMap_cons, discharge_contrib] using ih
    · rcases hp : d.battery_power with _ | p
      · simpa [List.filterMap_cons, discharge_contrib, hp] using ih
      · by_cases h0 : p < 0 <;>
          simp [List.filterMap_cons, List.filter_cons, discharge_contrib, hp,
            h0, ih]

lemma filterMap_stored_contrib (coords : List CoordinatorData) :
    coords.filterMap stored_contrib = stored_contributions coords := by
  induction coords with
  | nil => rfl
  | cons c cs ih =>
    simp only [stored_contributions] at ih ⊢
    rcases c with _ | d
    · simpa [List.filterMap_cons, List.filter_cons, stored_contrib,
        reports_both] using ih
    · rcases hs : d.battery_soc with _ | s <;>
        rcases he : d.battery_total_energy with _ | e <;>
        simp [List.filterMap_cons, List.filter_cons, stored_contrib,
          reports_both, hs, he, ih]

lemma sum_positive_powers_nonneg (coords : List CoordinatorData) :
    0 ≤ (positive_powers coords).sum := by
  apply List.sum_nonneg
  intro p hp
  have := List.of_mem_filter hp
  have : 0 < p := by simpa using this
  linarith

lemma sum_abs_negative_powers_nonneg (coords : List CoordinatorData) :
    0 ≤ ((negative_powers coords).map fun p => |p|).sum := by
  apply List.sum_nonneg
  intro q hq
  rcases List.mem_map.mp hq with ⟨p, _, rfl⟩
  exact abs_nonneg p

lemma calculate_total_charge_power_eq (prec : ℕ)
    (coords : List CoordinatorData) :
    calculate_total_charge_power prec coords
      = some (pyRound prec (positive_powers coords).sum) := by
  simp only [calculate_total_charge_power, loop_sum_eq,
    filterMap_charge_contrib]
  by_cases h : (positive_powers coords).isEmpty = true
  · have h' : positive_powers coords = [] := List.isEmpty_iff.mp h
    simp [h, h', pyRound_zero]
  · simp [h]

lemma calculate_total_discharge_power_eq (prec : ℕ)
    (coords : List CoordinatorData) :
    calculate_total_discharge_power prec coords
      = some (pyRound prec ((negative_powers coords).map fun p => |p|).sum) := by
  simp only [calculate_total_discharge_power, loop_sum_eq,
    filterMap_discharge_contrib]
  by_cases h : ((negative_powers coords).map fun p => |p|).isEmpty = true
  · have h' : (negative_powers coords).map (fun p => |p|) = [] :=
      List.isEmpty_iff.mp h
    simp [h, h', pyRound_zero]
  · simp [h]

lemma calculate_total_stored_energy_eq (prec : ℕ)
    (coords : List CoordinatorData) :
    calculate_total_stored_energy prec coords
      = if (stored_contributions coords).isEmpty then none
        else some (pyRound prec (stored_contributions coords).sum) := by
  simp only [calculate_total_stored_energy, loop_sum_eq,
    filterMap_stored_contrib]
  by_cases h : (stored_contributions coords).isEmpty = true <;> simp [h]

/-- Claim C2: for every set of battery snapshots (including the empty
set), `total_charge_power` is the sum of the strictly positive `power`
values and `total_discharge_power` the sum of the absolute values of the
strictly negative ones (each rounded at the definitions' precision 0); a
reading exactly at zero contributes to neither; when no battery
contributes each total is 0, never `None` and never negative. -/
theorem total_power_sums (coords : List CoordinatorData) :
    (∃ q, calculate_total_charge_power 0 coords = some q
      ∧ q = pyRound 0 (positive_powers coords).sum ∧ 0 ≤ q)
    ∧ (∃ q, calculate_total_discharge_power 0 coords = some q
      ∧ q = pyRound 0 ((negative_powers coords).map fun p => |p|).sum
      ∧ 0 ≤ q)
    ∧ (positive_powers coords = [] →
        calculate_total_charge_power 0 coords = some 0)
    ∧ (negative_powers coords = [] →
        calculate_total_discharge_power 0 coords = some 0)
    ∧ (∀ (pre post : List CoordinatorData) (b : BatteryData),
        b.battery_power = some 0 →
        calculate_total_charge_power 0 (pre ++ some b :: post)
          = calculate_total_charge_power 0 (pre ++ post)
        ∧ calculate_total_discharge_power 0 (pre ++ some b :: post)
          = calculate_total_discharge_power 0 (pre ++ post)) := by
  refine ⟨⟨_, calculate_total_charge_power_eq 0 coords, rfl,
      pyRound_nonneg 0 (sum_positive_powers_nonneg coords)⟩,
    ⟨_, calculate_total_discharge_power_eq 0 coords, rfl,
      pyRound_nonneg 0 (sum_abs_negative_powers_nonneg coords)⟩,
    ?_, ?_, ?_⟩
  · intro h
    rw [calculate_total_charge_power_eq, h]
    simp [pyRound_zero]
  · intro h
    rw [calculate_total_discharge_power_eq, h]
    simp [pyRound_zero]
  · intro pre post b hb
    have hpos : positive_powers (pre ++ some b :: post)
        = positive_powers (pre ++ post) := by
      simp [positive_powers, List.filterMap_append, List.filterMap_cons, hb]
    have hneg : negative_powers (pre ++ some b :: post)
        = negative_powers (pre ++ post) := by
      simp [negative_powers, List.filterMap_append, List.filterMap_cons, hb]
    rw [calculate_total_charge_power_eq, calculate_total_charge_power_eq,
      calculate_total_discharge_power_eq, calculate_total_discharge_power_eq,
      hpos, hneg]
    exact ⟨rfl, rfl⟩

/-- Claim C3: `total_stored_energy` equals the sum of `(soc/100) *
total_energy` over exactly the batteries reporting both fields, rounded
to 3 decimal places; a battery missing either field contributes nothing
and does not count as having data; the result is `None` exactly when no
battery contributes. -/
theorem stored_energy_aggregate (coords : List CoordinatorData) :
    (calculate_total_stored_energy 3 coords = none
      ↔ stored_contributions coords = [])
    ∧ (stored_contributions coords ≠ [] →
        calculate_total_stored_energy 3 coords
          = some (pyRound 3 (stored_contributions coords).sum)) := by
  rw [calculate_total_stored_energy_eq]
  constructor
  · by_cases h : (stored_contributions coords).isEmpty = true
    · simpa [h] using List.isEmpty_iff.mp h
    · simp only [h]
      simp only [List.isEmpty_iff] at h
      simp [h]
  · intro hne
    have h : (stored_contributions coords).isEmpty = false := by
      simpa [List.isEmpty_iff] using hne
    simp [h]

/-- Claim C4: `average_soc` is the arithmetic mean of the present `soc`
values rounded to 0 decimal places, `None` exactly when no battery
reports SOC; when exactly one battery reports SOC 50 and all others
report `None` (so the collected list is `[50]`), the result is 50. -/
theorem average_soc_spec (coords : List CoordinatorData) :
    (calculate_average_soc 0 coords = none ↔ soc_values coords = [])
    ∧ (soc_values coords ≠ [] →
        calculate_average_soc 0 coords
          = some (pyRound 0
              ((soc_values coords).sum / ((soc_values coords).length : ℚ))))
    ∧ (soc_values coords = [50] → calculate_average_soc 0 coords = some 50) := by
  have key : calculate_average_soc 0 coords
      = if (soc_values coords).isEmpty then none
        else some (pyRound 0
          ((soc_values coords).sum / ((soc_values coords).length : ℚ))) := rfl
  rw [key]
  refine ⟨?_, ?_, ?_⟩
  · by_cases h : (soc_values coords).isEmpty = true
    · simpa [h] using List.isEmpty_iff.mp h
    · simp only [h]
      simp only [List.isEmpty_iff] at h
      simp [h]
  · intro hne
    have h : (soc_values coords).isEmpty = false := by
      simpa [List.isEmpty_iff] using hne
    simp [h]
  · intro h50
    rw [h50]
    norm_num [pyRound, roundHalfEven]

/-- Claim C7: the aggregation computation is pure and idempotent — the
`native_value` dispatch leaves the coordinator state unchanged, a second
evaluation over that unchanged state yields the same value, and the
complete aggregate over an unchanged snapshot set is identical when
recomputed. -/
theorem aggregate_pure_idempotent (key : String)
    (coords : List CoordinatorData) :
    (native_value key coords).2 = coords
    ∧ (native_value key (native_value key coords).2).1
        = (native_value key coords).1
    ∧ aggregate coords = aggregate coords :=
  ⟨rfl, rfl, rfl⟩

/-- Claim C8: the aggregate system is available exactly when at least one
coordinator's data is not `None`. -/
theorem availability_iff (coords : List CoordinatorData) :
    available coords = true ↔ ∃ c ∈ coords, c ≠ none := by
  simp [available, List.any_eq_true, Option.isSome_iff_ne_none]

/-- Claim C1: on every evaluation tick, `grid_charging_active` equals the
unforced computed decision (`in_charging_slot AND total_stored_energy <
cutoff_energy_kwh AND energy_deficit_kwh > 0`) when no override is
active; with an override it equals the forced value verbatim; and the
DecisionRecord holds the unforced computed quantities — it is identical
to the record of the same tick evaluated without the override. -/
theorem predictive_decision_spec (i : ControllerInputs) :
    (evaluate_predictive_charging i).grid_charging_active
      = i.override_forced.getD (unforced_decision i)
    ∧ (evaluate_predictive_charging i).overridden = i.override_forced.isSome
    ∧ (evaluate_predictive_charging i).record
      = (evaluate_predictive_charging
          { i with override_forced := none }).record := by
  rcases i with ⟨stored, cap, avg, solar, ems, slot, ov⟩
  rcases avg with _ | a <;> rcases cap with _ | c <;>
    rcases stored with _ | s <;>
    simp [evaluate_predictive_charging, unforced_decision, cutoff_energy_kwh,
      energy_deficit_kwh, total_available_kwh, usable_energy_kwh,
      min_reserve_kwh]

/-- Counterexample to Claim C5 as stated: with average consumption
missing but the override forcing `true`, the controller reports grid
charging active — the override is applied verbatim even over the
insufficient-data fallback, so "does not activate grid charging" fails
for an overridden tick. -/
theorem predictive_insufficient_counterexample :
    (⟨none, none, none, none, 20, true, some true⟩ :
        ControllerInputs).avg_consumption = none
    ∧ (evaluate_predictive_charging
        ⟨none, none, none, none, 20, true, some true⟩).grid_charging_active
      = true :=
  ⟨rfl, rfl⟩

/-- Claim C5 (amended: on a tick with no override active): when
`average_consumption()` or `total_energy_capacity` is missing, the
controller does not activate grid charging and emits a DecisionRecord
whose reason is "insufficient data"; the evaluation is a total function,
so no missing telemetry input can raise. -/
theorem predictive_insufficient_data (i : ControllerInputs)
    (hov : i.override_forced = none)
    (h : i.avg_consumption = none ∨ i.total_energy_capacity = none) :
    (evaluate_predictive_charging i).grid_charging_active = false
    ∧ (evaluate_predictive_charging i).record.reason = "insufficient data" := by
  rcases i with ⟨stored, cap, avg, solar, ems, slot, ov⟩
  subst hov
  rcases h with h | h
  · subst h
    rcases cap with _ | c <;> rcases stored with _ | s <;>
      simp [evaluate_predictive_charging]
  · subst h
    rcases avg with _ | a <;> rcases stored with _ | s <;>
      simp [evaluate_predictive_charging]

/-- Closed witness for Claim C5's amended theorem: a concrete tick with
no override, no consumption history and capacity present. -/
theorem predictive_insufficient_data_witness :
    (evaluate_predictive_charging
        ⟨some 5, some 10, none, none, 20, true, none⟩).grid_charging_active
      = false
    ∧ (evaluate_predictive_charging
        ⟨some 5, some 10, none, none, 20, true, none⟩).record.reason
      = "insufficient data" :=
  predictive_insufficient_data ⟨some 5, some 10, none, none, 20, true, none⟩
    rfl (Or.inl rfl)

/-- Claim C6: the hysteresis flag on cold start is inactive; with no
externally restored state the current (default inactive) flag is left
unchanged; with restored state the flag becomes exactly whether the
persisted state reads "on". -/
theorem hysteresis_restore_spec :
    restore_hysteresis cold_start_hysteresis_active none = false
    ∧ (∀ current : Bool, restore_hysteresis current none = current)
    ∧ (∀ (current : Bool) (s : String),
        restore_hysteresis current (some s) = (s == "on"))
    ∧ (∀ (current : Bool) (s : String),
        restore_hysteresis current (some s) = true ↔ s = "on") := by
  refine ⟨rfl, fun _ => rfl, fun _ _ => rfl, fun _ s => ?_⟩
  simp [restore_hysteresis]

/-- Claim C9: the per-battery stored-energy sensor returns `None` exactly
when the coordinator's data is `None` or the reported capacity is absent
or not strictly positive; with a strictly positive capacity it returns
`round((soc/100) * capacity, 3)`, an absent SOC counting as 0. -/
theorem stored_energy_sensor_guard (data : Option BatteryData) :
    (stored_energy_native_value data = none
      ↔ data = none ∨ ∃ d, data = some d
          ∧ (d.battery_total_energy = none
            ∨ ∃ c, d.battery_total_energy = some c ∧ c ≤ 0))
    ∧ (∀ d c, data = some d → d.battery_total_energy = some c → 0 < c →
        stored_energy_native_value data
          = some (pyRound 3 (d.battery_soc.getD 0 / 100 * c))) := by
  constructor
  · rcases data with _ | d
    · simp [stored_energy_native_value]
    · rcases he : d.battery_total_energy with _ | c
      · simp [stored_energy_native_value, he]
      · by_cases hc : c ≤ 0 <;> simp [stored_energy_native_value, he, hc]
  · intro d c hd hc h0
    subst hd
    simp [stored_energy_native_value, hc, not_le.mpr h0]

/-- Claim C10: the per-battery efficiency sensor's division is guarded —
`None` exactly when the coordinator's data is `None` or the charging
energy (absent treated as 0) is not strictly positive; the quotient
`(discharge_energy / charge_energy) * 100`, rounded to 2 decimals, is
only produced with a strictly positive divisor. -/
theorem efficiency_sensor_guard (data : Option BatteryData) :
    (efficiency_native_value data = none
      ↔ data = none ∨ ∃ d, data = some d
          ∧ d.total_daily_charging_energy.getD 0 ≤ 0)
    ∧ (∀ d, data = some d → 0 < d.total_daily_charging_energy.getD 0 →
        efficiency_native_value data
          = some (pyRound 2 (d.total_daily_discharging_energy.getD 0
              / d.total_daily_charging_energy.getD 0 * 100))) := by
  constructor
  · rcases data with _ | d
    · simp [efficiency_native_value]
    · by_cases hc : d.total_daily_charging_energy.getD 0 ≤ 0 <;>
        simp [efficiency_native_value, hc]
  · intro d hd h0
    subst hd
    simp [efficiency_native_value, not_le.mpr h0]
